import Mathlib

/-!
Verification development for the Market Sales Analytics Hub dashboard
(src/main.py): a shallow embedding of its core decision logic — schema
classification, the filter pipeline, KPI aggregation, the dynamic chart
selection loop, the storyteller cursor, the what-if transform and the
trivia question generator — together with theorems settling claims
about that logic.

Modelling conventions:
- a table cell is a Value (rational number, string, date as a day
  count, or missing, mirroring NaN/NaT/None);
- a row is a total function from column names to values, a view is a
  list of rows (pandas row filtering preserves relative order, as does
  List.filter);
- floating point is modelled by the rationals; the claims checked here
  only involve exact float operations (multiplication by 1 and 0, sums,
  counts), where the rationals and IEEE doubles agree.
-/

/-- A cell value. num covers numeric dtypes, str categorical/object
values, date datetime values measured in days, missing NaN/NaT/None. -/
inductive Value where
  | num : ℚ → Value
  | str : String → Value
  | date : Int → Value
  | missing : Value
deriving DecidableEq

/-- A row maps each column name to the cell value stored there. -/
abbrev Row : Type := String → Value

/-- A view (DataFrame) is the ordered list of its rows. -/
abbrev View : Type := List Row

/-! ## Schema Classifier (src/main.py lines 33-37)

numeric_columns = df.select_dtypes(include=[number]) and
categorical_columns = df.select_dtypes(exclude=[number]): every
column lands in exactly one of the two lists according to its dtype. -/

/-- A pandas column dtype, as far as the classifier looks at it. -/
inductive DType where
  | number : DType
  | object : DType
  | datetime : DType
deriving DecidableEq

/-- A column of the uploaded frame: its name and dtype. -/
structure ColumnMeta where
  name : String
  dtype : DType
deriving DecidableEq

/-- df.select_dtypes(include=[number]).columns.tolist(). -/
def numericColumnsOf (cols : List ColumnMeta) : List String :=
  (cols.filter (fun c => c.dtype = DType.number)).map ColumnMeta.name

/-- df.select_dtypes(exclude=[number]).columns.tolist(). -/
def categoricalColumnsOf (cols : List ColumnMeta) : List String :=
  (cols.filter (fun c => ¬ c.dtype = DType.number)).map ColumnMeta.name

/-! ## Filter Engine (src/main.py lines 59-81)

The date-range filter keeps rows whose date value lies in [d1, d2]
(rows with a missing date compare false and are dropped); each
categorical filter keeps rows whose value is in the selected list; the
filters are applied one after another by reassigning the frame. -/

/-- One filter of the sidebar pipeline: a categorical inclusion filter
(line 81, isin) or the date-range filter (line 67, both date
comparisons conjoined). -/
inductive FilterSpec where
  | catFilter (col : String) (allowed : List Value)
  | dateRange (col : String) (lo hi : Int)

/-- Whether a row passes one filter. A missing or non-date value in the
date column makes both comparisons false, so the row is dropped, exactly
as NaT comparisons are false in pandas. -/
def filterHolds : FilterSpec → Row → Bool
  | FilterSpec.catFilter col allowed, r => allowed.contains (r col)
  | FilterSpec.dateRange col lo hi, r =>
      match r col with
      | Value.date d => decide (lo ≤ d) && decide (d ≤ hi)
      | _ => false

/-- Applying a list of filters in order: filtered_df = df.copy(), then
filtered_df is reassigned to its filtered version once per filter. -/
def applyFilterSet (fs : List FilterSpec) (rows : View) : View :=
  fs.foldl (fun acc f => acc.filter (filterHolds f)) rows

/-! ## Metric Aggregator (src/main.py lines 55-56 and 88-96) -/

/-- The numeric coercion pd.to_numeric with errors=coerce followed by
fillna(0), applied to the sales column: any value that is not a number
becomes 0. -/
def toNum : Value → ℚ
  | Value.num q => q
  | _ => 0

/-- SELECT SUM(col) FROM view on the coerced column, with the Python
or-0 turning the NULL sum of an empty view into 0: the sum of the
coerced column, which is 0 when the view is empty. -/
def totalMeasure (rows : View) (col : String) : ℚ :=
  (rows.map (fun r => toNum (r col))).sum

/-- SELECT COUNT(*) FROM view. -/
def transactionCount (rows : View) : ℕ :=
  rows.length

/-- SELECT COUNT(DISTINCT col) FROM view: distinct non-NULL values. -/
def uniqueCategories (rows : View) (col : String) : ℕ :=
  (((rows.map (fun r => r col)).filter (fun v => ¬ v = Value.missing)).dedup).length

/-- The non-missing date values of a column, in row order. -/
def dateValues (rows : View) (col : String) : List Int :=
  rows.filterMap (fun r =>
    match r col with
    | Value.date d => some d
    | _ => none)

/-- SELECT MIN(col), MAX(col) FROM view: NULL (none) when the column
has no non-missing date. -/
def dateRangeOf (rows : View) (col : String) : Option Int × Option Int :=
  ((dateValues rows col).min?, (dateValues rows col).max?)

/-- The three user-chosen roles (src/main.py lines 40-53). -/
structure RoleSelection where
  dateColumn : Option String
  categoryColumn : Option String
  salesColumn : Option String

/-- The kpi_data dict: a key is present exactly when its guarding role
is set; total_transactions is always present. -/
structure KPISet where
  total_sales : Option ℚ
  total_transactions : ℕ
  unique_categories : Option ℕ
  date_range : Option (Option Int × Option Int)
deriving DecidableEq

/-- The KPI block (src/main.py lines 89-96): each KPI is guarded by its
own role and computed by its own independent query against the view. -/
def computeKPIs (roles : RoleSelection) (rows : View) : KPISet :=
  { total_sales :=
      match roles.salesColumn with
      | some c => some (totalMeasure rows c)
      | none => none
    total_transactions := transactionCount rows
    unique_categories :=
      match roles.categoryColumn with
      | some c => some (uniqueCategories rows c)
      | none => none
    date_range :=
      match roles.dateColumn with
      | some c => some (dateRangeOf rows c)
      | none => none }

/-! ## Chart Selector (src/main.py lines 131-218)

The loop runs i over range(min(9, len(numeric) + len(categorical))).
Each iteration tests one rule, selected by i mod 7 (the elif chain is an
exhaustive case split on i mod 7 joined with the precondition of each
rule), builds the chart inside a try, and on an exception warns and
falls through; when no rule precondition holds, chart_type stays None
and an info notice is shown for that slot. -/

/-- The cyclic indexing used by the loop: element i mod len of the list
(only evaluated under a precondition guaranteeing the list is
nonempty). -/
def cyc (l : List String) (i : ℕ) : String :=
  l.getD (i % l.length) ""

/-- The seven chart templates bound to the rules i mod 7 = 0 .. 6. -/
inductive ChartTemplate where
  | scatter (x y : String)
  | pie (names : String)
  | barMean (cat sales : String)
  | histogram (x : String)
  | box (cat num : String)
  | line (date sales : String)
  | scatterColor (x y color : String)
deriving DecidableEq

/-- The schema and role information the dynamic-report loop reads. -/
structure Schema where
  numericColumns : List String
  categoricalColumns : List String
  dateColumn : Option String
  salesColumn : Option String

/-- min(9, len(numeric_columns) + len(categorical_columns)): the number
of slots the loop attempts (line 137). -/
def numSlots (s : Schema) : ℕ :=
  min 9 (s.numericColumns.length + s.categoricalColumns.length)

/-- The elif chain of the loop body (lines 142-216): which template (if
any) slot i attempts. none means no rule precondition held, i.e.
chart_type stayed None. -/
def selectTemplate (s : Schema) (i : ℕ) : Option ChartTemplate :=
  let nums := s.numericColumns
  let cats := s.categoricalColumns
  if 2 ≤ nums.length ∧ i % 7 = 0 then
    some (ChartTemplate.scatter (cyc nums i) (cyc nums (i + 1)))
  else if cats ≠ [] ∧ i % 7 = 1 then
    some (ChartTemplate.pie (cyc cats i))
  else if cats ≠ [] ∧ s.salesColumn.isSome ∧ i % 7 = 2 then
    some (ChartTemplate.barMean (cyc cats i) (s.salesColumn.getD ""))
  else if nums ≠ [] ∧ i % 7 = 3 then
    some (ChartTemplate.histogram (cyc nums i))
  else if cats ≠ [] ∧ nums ≠ [] ∧ i % 7 = 4 then
    some (ChartTemplate.box (cyc cats i) (cyc nums i))
  else if s.dateColumn.isSome ∧ s.salesColumn.isSome ∧ i % 7 = 5 then
    some (ChartTemplate.line (s.dateColumn.getD "") (s.salesColumn.getD ""))
  else if 2 ≤ nums.length ∧ cats ≠ [] ∧ i % 7 = 6 then
    some (ChartTemplate.scatterColor (cyc nums i) (cyc nums (i + 1)) (cyc cats i))
  else
    none

/-- The outcome of one slot. produced is a rendered chart; failed is a
slot whose materialization threw (the except branch: a warning carrying
the error message, then the loop continues); noRule is a slot where no
rule precondition held (the st.info notice branch, lines 217-218). -/
inductive SlotStatus where
  | produced (t : ChartTemplate)
  | failed (t : ChartTemplate) (msg : String)
  | noRule
deriving DecidableEq

/-- The try/except around one chart call: ok renders the chart, error e
lands in the except branch with message e. -/
def materializeSlot (t : ChartTemplate) : Except String Unit → SlotStatus
  | Except.ok _ => SlotStatus.produced t
  | Except.error e => SlotStatus.failed t e

/-- The whole dynamic-report loop, parameterized by a materialization
oracle mat saying whether the plotting call for slot i with template t
succeeds or throws. One status per attempted slot, in order. -/
def chartSlots (s : Schema) (mat : ℕ → ChartTemplate → Except String Unit) :
    List SlotStatus :=
  (List.range (numSlots s)).map (fun i =>
    match selectTemplate s i with
    | some t => materializeSlot t (mat i t)
    | none => SlotStatus.noRule)

/-- Whether a slot status is the st.info notice saying that no suitable
data was found to generate a dynamic chart. -/
def isNoRule : SlotStatus → Bool
  | SlotStatus.noRule => true
  | _ => false

/-- How many no-suitable-chart notices the loop emits: the notice sits
inside the loop body (lines 217-218), so one copy appears per slot
whose chart_type stayed None. -/
def noticeCount (slots : List SlotStatus) : ℕ :=
  slots.countP isNoRule

/-! ## Narrative Sequencer (src/main.py lines 304-365) -/

/-- The four story-step templates, in the fixed order the list is
built. -/
inductive StoryTemplate where
  | histogramStep
  | barMeanStep
  | lineStep
  | pieStep
deriving DecidableEq

/-- The story_steps list: each block is appended only when its guard
roles are set (lines 312-336). -/
def storySteps (sales cat date : Option String) : List StoryTemplate :=
  (if sales.isSome then [StoryTemplate.histogramStep] else []) ++
  (if cat.isSome ∧ sales.isSome then [StoryTemplate.barMeanStep] else []) ++
  (if date.isSome ∧ sales.isSome then [StoryTemplate.lineStep] else []) ++
  (if cat.isSome then [StoryTemplate.pieStep] else [])

/-- The story cursor in st.session_state starts at 0 (lines 309-310). -/
def initStoryCursor : ℕ := 0

/-- One click of the Next button: the button is rendered only while
current_step < len(story_steps) (line 344), so the increment (line 359)
is available exactly below n and the cursor saturates at n, the
terminal end-of-story state. -/
def advanceStory (n cursor : ℕ) : ℕ :=
  if cursor < n then cursor + 1 else cursor

/-- The Restart Story button in the terminal state (line 364). -/
def restartStory : ℕ := 0

/-! ## What-If Simulator (src/main.py lines 367-422) -/

/-- Multiplying one cell of the selected numeric column by the change
factor. A numeric column holds num or missing (NaN) entries; NaN times
anything is NaN, so missing stays missing. -/
def scaleValue (f : ℚ) : Value → Value
  | Value.num q => Value.num (q * f)
  | v => v

/-- Assigning a whole column of a view, row by row. -/
def setColumn (rows : View) (col : String) (g : Value → Value) : View :=
  rows.map (fun r => fun c => if c = col then g (r c) else r c)

/-- Lines 382-383: the selected column of the copied view is multiplied
by the factor 1 + p/100; all other columns are untouched. -/
def whatIfTransform (rows : View) (col : String) (p : ℚ) : View :=
  setColumn rows col (scaleValue (1 + p / 100))

/-- The session state the what-if handler can see: the baseline
filtered view and its baseline KPI dict. -/
structure SessionState where
  filtered : View
  kpis : KPISet

/-- filtered_df.copy() (line 381). -/
def copyView (rows : View) : View :=
  rows.map id

/-- The Apply What-If Change handler (lines 378-419): copy the filtered
view, scale the chosen column on the copy, recompute every KPI against
the copy on a fresh temporary connection, and return the updated KPI
dict for display. The handler assigns neither filtered_df nor kpi_data,
so the session state it leaves behind carries the same baseline view
and baseline KPIs it received; the modified view is a local that dies
with the invocation. -/
def whatIfHandler (st : SessionState) (roles : RoleSelection)
    (col : String) (p : ℚ) : SessionState × KPISet :=
  let modified := whatIfTransform (copyView st.filtered) col p
  let updated := computeKPIs roles modified
  ({ filtered := st.filtered, kpis := st.kpis }, updated)

/-! ## Trivia Generator (src/main.py lines 440-463)

The average question formats mean, median, min and max of a numeric
column to two decimals; the value_counts question takes the four most
frequent values of a categorical column and forces the true mode into
the last position when it is absent. random.shuffle only permutes the
returned option list, so the embedding keeps the pre-shuffle list:
length and membership are invariant under the shuffle. -/

/-- Rounding to two decimals: the integer of hundredths. The claims
proved about the options never depend on the rounding mode, so the
difference between this rounding and the IEEE one of the Python format
is immaterial. -/
def round2 (q : ℚ) : ℤ :=
  round (q * 100)

/-- The two-decimal rendering used for the average options. -/
def fmt2 (q : ℚ) : String :=
  let n := round2 q
  let sign := if n < 0 then "-" else ""
  let m := n.natAbs
  let frac := m % 100
  let fracStr := if frac < 10 then "0" ++ toString frac else toString frac
  sign ++ toString (m / 100) ++ "." ++ fracStr

/-- df[col].mean(): sum over length. (The 0 at an empty column stands
in for the NaN Python produces there; no proved property depends on
it.) -/
def meanQ (xs : List ℚ) : ℚ :=
  xs.sum / xs.length

/-- df[col].median(): middle of the sorted values, or the average of
the two middles at even length. -/
def medianQ (xs : List ℚ) : ℚ :=
  let s := List.insertionSort (fun a b => a ≤ b) xs
  let n := s.length
  if n % 2 = 1 then s.getD (n / 2) 0
  else (s.getD (n / 2 - 1) 0 + s.getD (n / 2) 0) / 2

/-- df[col].min(). -/
def minQ (xs : List ℚ) : ℚ :=
  (xs.min?).getD 0

/-- df[col].max(). -/
def maxQ (xs : List ℚ) : ℚ :=
  (xs.max?).getD 0

/-- The option list of the average question (line 450): the four
formatted statistics, correct answer first (before the shuffle). -/
def averageOptions (xs : List ℚ) : List String :=
  [fmt2 (meanQ xs), fmt2 (medianQ xs), fmt2 (minQ xs), fmt2 (maxQ xs)]

/-- How often a value occurs in a column. -/
def countVal (xs : List String) (v : String) : ℕ :=
  (xs.filter (fun x => x = v)).length

/-- The distinct values of a column in order of first occurrence. -/
def distinctFirst (xs : List String) : List String :=
  xs.foldl (fun acc x => if x ∈ acc then acc else acc ++ [x]) []

/-- Lexicographic character order on strings (the order pandas sorts
the tied mode values with), written out so that it evaluates inside the
kernel. -/
def charLeList : List Char → List Char → Bool
  | [], _ => true
  | _ :: _, [] => false
  | a :: as, b :: bs =>
      if a.toNat < b.toNat then true
      else if b.toNat < a.toNat then false
      else charLeList as bs

/-- strLe a b: a is lexicographically at most b. -/
def strLe (a b : String) : Bool :=
  charLeList a.data b.data

/-- df[col].mode()[0] if the column is nonempty, else the sentinel N/A
(line 455): pandas mode returns the values of maximal count sorted
ascending, and [0] picks the least. -/
def modeVal (xs : List String) : String :=
  if xs = [] then "N/A"
  else
    let d := distinctFirst xs
    let maxCount := (d.map (countVal xs)).foldl max 0
    ((d.filter (fun v => countVal xs v = maxCount)).insertionSort
      (fun a b => strLe a b)).headD "N/A"

/-- df[col].value_counts().index: the distinct values sorted by
descending count (a stable sort, so tied values keep first-occurrence
order). -/
def valueCounts (xs : List String) : List String :=
  (distinctFirst xs).insertionSort (fun a b => countVal xs b ≤ countVal xs a)

/-- The option list of the value_counts question (lines 457-459):
nlargest(4) keeps at most four values, and when the true mode is
missing from them it overwrites the last entry (the Python index -1). -/
def triviaCatOptions (xs : List String) : List String :=
  let top := modeVal xs
  let vcs := (valueCounts xs).take 4
  if ¬ top = "N/A" ∧ ¬ top ∈ vcs then vcs.set (vcs.length - 1) top else vcs

/-! ## Sample data used by the witness theorems -/

/-- A sample row of the end-to-end scenario: an East-region sale. -/
def rowEast : Row :=
  fun c => if c = "Region" then Value.str "East" else Value.num 10

/-- A sample row: a West-region sale. -/
def rowWest : Row :=
  fun c => if c = "Region" then Value.str "West" else Value.num 20

/-- A two-row sample view. -/
def sampleView : View :=
  [rowEast, rowWest]

/-- A one-column all-numeric sample row. -/
def rowNum5 : Row :=
  fun _ => Value.num 5

/-! ## Helper lemmas -/

/-- Folding the filters over the view one by one equals one filtering
pass with the conjunction of all the filter predicates. -/
theorem applyFilterSet_eq_filter (fs : List FilterSpec) (rows : View) :
    applyFilterSet fs rows
      = rows.filter (fun r => fs.all (fun f => filterHolds f r)) := by
  induction fs generalizing rows with
  | nil => simp [applyFilterSet]
  | cons f fs ih =>
    have h1 : applyFilterSet (f :: fs) rows
        = applyFilterSet fs (rows.filter (filterHolds f)) := rfl
    rw [h1, ih, List.filter_filter]
    apply List.filter_congr
    intro r _
    simp [Bool.and_comm]

/-! ## Claim theorems -/

/-- C3: for every view, applying two filter sets (categorical inclusion
filters and/or date ranges) in either order yields the same filtered
view, and applying a list of filters keeps exactly the rows satisfying
every filter — the intersection of the per-filter row sets, independent
of order. -/
theorem filters_commute_and_intersect :
    (∀ (rows : View) (F1 F2 : List FilterSpec),
        applyFilterSet F2 (applyFilterSet F1 rows)
          = applyFilterSet F1 (applyFilterSet F2 rows)) ∧
    (∀ (fs : List FilterSpec) (rows : View) (r : Row),
        r ∈ applyFilterSet fs rows ↔
          r ∈ rows ∧ ∀ f ∈ fs, filterHolds f r = true) := by
  constructor
  · intro rows F1 F2
    rw [applyFilterSet_eq_filter, applyFilterSet_eq_filter,
        applyFilterSet_eq_filter, applyFilterSet_eq_filter,
        List.filter_filter, List.filter_filter]
    apply List.filter_congr
    intro r _
    exact Bool.and_comm _ _
  · intro fs rows r
    rw [applyFilterSet_eq_filter, List.mem_filter]
    simp [List.all_eq_true]

/-- Witness for C3 at a concrete view and concrete filters. -/
theorem filters_commute_and_intersect_witness :
    applyFilterSet [FilterSpec.catFilter "Region" [Value.str "East"]]
        (applyFilterSet [FilterSpec.dateRange "Date" 0 10] sampleView)
      = applyFilterSet [FilterSpec.dateRange "Date" 0 10]
          (applyFilterSet [FilterSpec.catFilter "Region" [Value.str "East"]]
            sampleView) ∧
    rowEast ∈ applyFilterSet [FilterSpec.catFilter "Region" [Value.str "East"]]
        sampleView :=
  ⟨filters_commute_and_intersect.1 sampleView _ _,
   (filters_commute_and_intersect.2 _ sampleView rowEast).mpr
     ⟨by simp [sampleView], by intro f hf; simp at hf; subst hf; rfl⟩⟩

/-- C4: the aggregator on the empty view gives total-measure 0 and
transaction count 0; on any view with the sales role set, total_sales
is the sum of the sales column with non-numeric and missing entries
coerced to 0; and each of the four KPIs is a function of the view and
its own role alone — an unset role yields none for that KPI while the
other KPIs are still computed. -/
theorem kpi_aggregator_independent :
    (∀ c : String, totalMeasure ([] : View) c = 0) ∧
    transactionCount ([] : View) = 0 ∧
    (∀ (roles : RoleSelection) (rows : View),
      (computeKPIs roles rows).total_sales
          = roles.salesColumn.map (fun c => (rows.map (fun r => toNum (r c))).sum) ∧
      (computeKPIs roles rows).total_transactions = rows.length ∧
      (computeKPIs roles rows).unique_categories
          = roles.categoryColumn.map (fun c => uniqueCategories rows c) ∧
      (computeKPIs roles rows).date_range
          = roles.dateColumn.map (fun c => dateRangeOf rows c)) := by
  refine ⟨fun c => rfl, rfl, fun roles rows => ⟨?_, rfl, ?_, ?_⟩⟩
  · cases h : roles.salesColumn <;> simp [computeKPIs, h, totalMeasure]
  · cases h : roles.categoryColumn <;> simp [computeKPIs, h]
  · cases h : roles.dateColumn <;> simp [computeKPIs, h]

/-- C6: with only the measure role set the story has exactly the one
histogram step; the cursor starts at 0; advancing increments the
cursor by 1 while it is below the step count and saturates at the step
count (the terminal state); restarting resets the cursor to 0. -/
theorem storyteller_measure_only :
    (∀ m : String, storySteps (some m) none none = [StoryTemplate.histogramStep]) ∧
    initStoryCursor = 0 ∧
    (∀ n cursor : ℕ, cursor < n → advanceStory n cursor = cursor + 1) ∧
    (∀ n : ℕ, advanceStory n n = n) ∧
    restartStory = 0 := by
  refine ⟨fun m => rfl, rfl, fun n cursor h => ?_, fun n => ?_, rfl⟩
  · simp [advanceStory, h]
  · simp [advanceStory]

/-- Witness for C6: a one-step story advanced from 0 reaches 1. -/
theorem storyteller_measure_only_witness :
    advanceStory 1 0 = 1 ∧
    storySteps (some "Sales") none none = [StoryTemplate.histogramStep] :=
  ⟨storyteller_measure_only.2.2.1 1 0 (by decide),
   storyteller_measure_only.1 "Sales"⟩

/-- Scaling a cell by factor 1 changes nothing. -/
theorem scaleValue_one (v : Value) : scaleValue 1 v = v := by
  cases v <;> simp [scaleValue]

/-- The what-if transform with percentage 0 is the identity on the
view. -/
theorem whatIfTransform_zero (rows : View) (col : String) :
    whatIfTransform rows col 0 = rows := by
  unfold whatIfTransform setColumn
  have hf : (1 : ℚ) + 0 / 100 = 1 := by norm_num
  rw [hf]
  conv_rhs => rw [← List.map_id rows]
  apply List.map_congr_left
  intro r _
  funext c
  by_cases hc : c = col
  · simp [hc, scaleValue_one]
  · simp [hc]

/-- Reading any column other than the reassigned one through a column
assignment gives the original values. -/
theorem setColumn_map_other (rows : View) (col : String) (g : Value → Value)
    (c : String) (hc : ¬ c = col) :
    (setColumn rows col g).map (fun r => r c) = rows.map (fun r => r c) := by
  unfold setColumn
  rw [List.map_map]
  apply List.map_congr_left
  intro r _
  simp [Function.comp, hc]

/-- C7: with percentage 0 the recomputed KPI set equals the baseline
KPI set; with percentage -100 every value of the transformed column
becomes 0 (on a numeric column, i.e. one whose cells are all numbers,
as the coerced measure column is) and the recomputed total measure of
that column is 0. -/
theorem whatif_zero_and_minus100 (roles : RoleSelection) (rows : View)
    (col : String) (hnum : ∀ r ∈ rows, ∃ q : ℚ, r col = Value.num q) :
    computeKPIs roles (whatIfTransform rows col 0) = computeKPIs roles rows ∧
    (∀ r2 ∈ whatIfTransform rows col (-100), r2 col = Value.num 0) ∧
    totalMeasure (whatIfTransform rows col (-100)) col = 0 := by
  have hf : (1 : ℚ) + (-100) / 100 = 0 := by norm_num
  refine ⟨by rw [whatIfTransform_zero], ?_, ?_⟩
  · intro r2 hr2
    unfold whatIfTransform setColumn at hr2
    rw [List.mem_map] at hr2
    obtain ⟨r, hr, heq⟩ := hr2
    obtain ⟨q, hq⟩ := hnum r hr
    rw [← heq]
    simp [hf, hq, scaleValue]
  · unfold totalMeasure whatIfTransform setColumn
    apply List.sum_eq_zero
    intro x hx
    rw [List.map_map, List.mem_map] at hx
    obtain ⟨r, _, heq⟩ := hx
    rw [← heq]
    cases hv : r col <;> simp [Function.comp, hf, hv, scaleValue, toNum]

/-- Witness for C7: a one-row all-numeric view driven to total 0 by a
-100 percent change. -/
theorem whatif_zero_and_minus100_witness :
    totalMeasure (whatIfTransform [rowNum5] "Amount" (-100)) "Amount" = 0 :=
  (whatif_zero_and_minus100 ⟨none, none, none⟩ [rowNum5] "Amount"
    (fun r hr => ⟨5, by rw [List.mem_singleton] at hr; rw [hr]; rfl⟩)).2.2

/-- C9: the what-if handler leaves the baseline filtered view and the
baseline KPI set in the session exactly as it found them, for every
column and percentage, and the KPI set it displays is the one
recomputed against the independently transformed copy. -/
theorem whatif_preserves_baseline (st : SessionState) (roles : RoleSelection)
    (col : String) (p : ℚ) :
    (whatIfHandler st roles col p).1.filtered = st.filtered ∧
    (whatIfHandler st roles col p).1.kpis = st.kpis ∧
    (whatIfHandler st roles col p).2
      = computeKPIs roles (whatIfTransform st.filtered col p) := by
  refine ⟨rfl, rfl, ?_⟩
  show computeKPIs roles (whatIfTransform (copyView st.filtered) col p) = _
  rw [copyView, List.map_id]

/-- C10: scaling a numeric column changes neither the transaction
count nor the unique-category count: the schema classifier puts every
column in exactly one of the numeric and categorical lists, so the
scaled column cannot be the category column, the transform maps rows
one to one, and the category column values are untouched. -/
theorem whatif_count_and_categories_invariant
    (cols : List ColumnMeta) (roles : RoleSelection) (rows : View)
    (col catCol : String) (p : ℚ)
    (hnodup : (cols.map ColumnMeta.name).Nodup)
    (hcol : col ∈ numericColumnsOf cols)
    (hcat : catCol ∈ categoricalColumnsOf cols)
    (hrole : roles.categoryColumn = some catCol) :
    ¬ catCol = col ∧
    (computeKPIs roles (whatIfTransform rows col p)).total_transactions
      = (computeKPIs roles rows).total_transactions ∧
    (computeKPIs roles (whatIfTransform rows col p)).unique_categories
      = (computeKPIs roles rows).unique_categories := by
  have hne : ¬ catCol = col := by
    intro he
    unfold numericColumnsOf at hcol
    unfold categoricalColumnsOf at hcat
    rw [List.mem_map] at hcol hcat
    obtain ⟨m1, hm1, hm1n⟩ := hcol
    obtain ⟨m2, hm2, hm2n⟩ := hcat
    rw [List.mem_filter] at hm1 hm2
    have hmm : m1 = m2 := by
      apply List.inj_on_of_nodup_map hnodup hm1.1 hm2.1
      rw [hm1n, hm2n, he]
    have h1 : m1.dtype = DType.number := by
      have := hm1.2
      simpa using this
    have h2 : ¬ m2.dtype = DType.number := by
      have := hm2.2
      simpa using this
    rw [hmm] at h1
    exact h2 h1
  refine ⟨hne, ?_, ?_⟩
  · simp [computeKPIs, transactionCount, whatIfTransform, setColumn]
  · simp only [computeKPIs, hrole]
    have hvals : ((whatIfTransform rows col p).map (fun r => r catCol))
        = rows.map (fun r => r catCol) :=
      setColumn_map_other rows col _ catCol hne
    unfold uniqueCategories
    rw [hvals]

/-- Witness for C10: a concrete two-column frame where scaling the
numeric Revenue column by half leaves the unique Region count
unchanged. -/
theorem whatif_count_and_categories_invariant_witness :
    (computeKPIs ⟨none, some "Region", none⟩
        (whatIfTransform sampleView "Revenue" 50)).unique_categories
      = (computeKPIs ⟨none, some "Region", none⟩ sampleView).unique_categories :=
  (whatif_count_and_categories_invariant
    [⟨"Revenue", DType.number⟩, ⟨"Region", DType.object⟩]
    ⟨none, some "Region", none⟩ sampleView "Revenue" "Region" 50
    (by decide) (by decide) (by decide) rfl).2.2

/-- The status of attempted slot i: the loop writes one entry per
index, from the selected template and the materialization outcome. -/
theorem chartSlots_getElem (s : Schema)
    (mat : ℕ → ChartTemplate → Except String Unit) (i : ℕ)
    (hi : i < numSlots s) :
    (chartSlots s mat)[i]?
      = some (match selectTemplate s i with
          | some t => materializeSlot t (mat i t)
          | none => SlotStatus.noRule) := by
  unfold chartSlots
  rw [List.getElem?_map, List.getElem?_range hi]
  rfl

/-- C1: with exactly two numeric columns, no categorical column and no
date role, the loop attempts exactly min(9, 2) = 2 slots; slot 0 runs
rule 0 and attempts a scatter of (numeric 0, numeric 1); slot 1 runs
rule 1, whose precondition fails, so it is skipped with no replacement
template tried for that index. -/
theorem chart_two_numeric_only (a b : String) (sales : Option String)
    (mat : ℕ → ChartTemplate → Except String Unit) :
    numSlots ⟨[a, b], [], none, sales⟩ = 2 ∧
    selectTemplate ⟨[a, b], [], none, sales⟩ 0
      = some (ChartTemplate.scatter a b) ∧
    selectTemplate ⟨[a, b], [], none, sales⟩ 1 = none ∧
    chartSlots ⟨[a, b], [], none, sales⟩ mat
      = [materializeSlot (ChartTemplate.scatter a b)
           (mat 0 (ChartTemplate.scatter a b)),
         SlotStatus.noRule] := by
  have h0 : selectTemplate ⟨[a, b], [], none, sales⟩ 0
      = some (ChartTemplate.scatter a b) := by
    simp [selectTemplate, cyc]
  have h1 : selectTemplate ⟨[a, b], [], none, sales⟩ 1 = none := by
    simp [selectTemplate]
  refine ⟨rfl, h0, h1, ?_⟩
  have hr : List.range (numSlots ⟨[a, b], [], none, sales⟩) = [0, 1] := rfl
  unfold chartSlots
  rw [hr]
  simp [h0, h1]

/-- C2 counterexample: with 0 numeric and 0 categorical columns the
loop attempts 0 slots, and the number of no-suitable-chart notices is
0, not 1 — the notice lives inside the loop body, so an empty loop
emits none. -/
theorem chart_notice_counterexample :
    chartSlots ⟨[], [], none, none⟩ (fun _ _ => Except.ok ()) = [] ∧
    ¬ noticeCount (chartSlots ⟨[], [], none, none⟩
        (fun _ _ => Except.ok ())) = 1 := by
  exact ⟨rfl, by decide⟩

/-- C2 amended: the loop emits exactly one no-suitable-chart notice
per attempted slot whose rule precondition fails (in particular 0
notices when 0 slots are attempted, as with 0 numeric and 0
categorical columns), rather than a single notice overall. -/
theorem chart_notice_per_unqualified_slot (s : Schema)
    (mat : ℕ → ChartTemplate → Except String Unit) :
    noticeCount (chartSlots s mat)
      = ((List.range (numSlots s)).filter
          (fun i => (selectTemplate s i).isNone)).length ∧
    chartSlots ⟨[], [], none, none⟩ mat = [] := by
  constructor
  · unfold noticeCount chartSlots
    rw [List.countP_map, ← List.countP_eq_length_filter]
    apply List.countP_congr
    intro i _
    cases h : selectTemplate s i with
    | none => simp [Function.comp, h, isNoRule]
    | some t =>
        cases hm : mat i t <;>
          simp [Function.comp, h, hm, isNoRule, materializeSlot]
  · rfl

/-- C8: every attempted slot gets a status; a slot whose
materialization throws is marked failed with that error message; and
the status of a slot depends only on its own materialization outcome,
so one failing slot never changes — let alone aborts — the other
slots. -/
theorem chart_slot_failure_isolated (s : Schema)
    (mat mat2 : ℕ → ChartTemplate → Except String Unit) :
    (chartSlots s mat).length = numSlots s ∧
    (∀ (i : ℕ) (t : ChartTemplate) (e : String),
        i < numSlots s → selectTemplate s i = some t →
        mat i t = Except.error e →
        (chartSlots s mat)[i]? = some (SlotStatus.failed t e)) ∧
    (∀ j : ℕ, (∀ u : ChartTemplate, mat j u = mat2 j u) →
        (chartSlots s mat)[j]? = (chartSlots s mat2)[j]?) := by
  refine ⟨by simp [chartSlots], ?_, ?_⟩
  · intro i t e hi hsel hmat
    rw [chartSlots_getElem s mat i hi, hsel]
    simp [materializeSlot, hmat]
  · intro j hj
    by_cases hjn : j < numSlots s
    · rw [chartSlots_getElem s mat j hjn, chartSlots_getElem s mat2 j hjn]
      cases h : selectTemplate s j <;> simp [h, hj]
    · have hlen1 : (chartSlots s mat).length ≤ j := by
        simp [chartSlots]
        omega
      have hlen2 : (chartSlots s mat2).length ≤ j := by
        simp [chartSlots]
        omega
      rw [List.getElem?_eq_none hlen1, List.getElem?_eq_none hlen2]

/-- Witness for C8: a throwing scatter materialization at slot 0 is
recorded as a failed slot with its message. -/
theorem chart_slot_failure_isolated_witness :
    (chartSlots ⟨["x", "y"], [], none, none⟩
        (fun _ _ => Except.error "boom"))[0]?
      = some (SlotStatus.failed (ChartTemplate.scatter "x" "y") "boom") :=
  (chart_slot_failure_isolated ⟨["x", "y"], [], none, none⟩
      (fun _ _ => Except.error "boom") (fun _ _ => Except.error "boom")).2.1
    0 (ChartTemplate.scatter "x" "y") "boom" (by decide) rfl rfl

/-- Accumulating distinct values never empties a nonempty
accumulator. -/
theorem foldl_accumulate_ne_nil (t : List String) (acc : List String)
    (h : ¬ acc = []) :
    ¬ t.foldl (fun acc2 x => if x ∈ acc2 then acc2 else acc2 ++ [x]) acc = [] := by
  induction t generalizing acc with
  | nil => exact h
  | cons y t ih =>
    rw [List.foldl_cons]
    apply ih
    by_cases hy : y ∈ acc
    · simpa [hy] using h
    · simp [hy]

/-- A nonempty column has a nonempty distinct-value list. -/
theorem distinctFirst_ne_nil (xs : List String) (h : ¬ xs = []) :
    ¬ distinctFirst xs = [] := by
  cases xs with
  | nil => exact absurd rfl h
  | cons x t =>
    unfold distinctFirst
    rw [List.foldl_cons]
    apply foldl_accumulate_ne_nil
    simp

/-- C5 counterexample: a categorical column with two distinct values
yields a value_counts option list of length 2, not an option set of
size exactly 4. -/
theorem trivia_options_size_counterexample :
    (triviaCatOptions ["a", "a", "b"]).length = 2 ∧ ¬ (2 : ℕ) = 4 := by
  decide

/-- C5 amended: the average question always has exactly 4 options and
the formatted mean (the correct answer) is among them; the
value_counts question has min(4, number of distinct values) options,
and whenever the column is nonempty and its mode is not the literal
sentinel string N/A, the true mode is among the options — forced into
the last position when it fell outside the naive top 4. -/
theorem trivia_options_amended (qs : List ℚ) (xs : List String)
    (hne : ¬ xs = []) (hmode : ¬ modeVal xs = "N/A") :
    (averageOptions qs).length = 4 ∧
    fmt2 (meanQ qs) ∈ averageOptions qs ∧
    (triviaCatOptions xs).length = min 4 (distinctFirst xs).length ∧
    modeVal xs ∈ triviaCatOptions xs := by
  have hvlen : (valueCounts xs).length = (distinctFirst xs).length := by
    unfold valueCounts
    exact List.length_insertionSort _ _
  have htlen : ((valueCounts xs).take 4).length
      = min 4 (distinctFirst xs).length := by
    rw [List.length_take, hvlen]
  have hpos : 0 < ((valueCounts xs).take 4).length := by
    rw [htlen]
    have hd : ¬ distinctFirst xs = [] := distinctFirst_ne_nil xs hne
    have hp : 0 < (distinctFirst xs).length := List.length_pos.mpr hd
    omega
  refine ⟨rfl, by simp [averageOptions], ?_, ?_⟩
  · simp only [triviaCatOptions]
    by_cases hc : ¬ modeVal xs = "N/A" ∧ ¬ modeVal xs ∈ (valueCounts xs).take 4
    · rw [if_pos hc, List.length_set]
      exact htlen
    · rw [if_neg hc]
      exact htlen
  · simp only [triviaCatOptions]
    by_cases hmem : modeVal xs ∈ (valueCounts xs).take 4
    · rw [if_neg (fun hcon => hcon.2 hmem)]
      exact hmem
    · rw [if_pos ⟨hmode, hmem⟩]
      have hidx : ((valueCounts xs).take 4).length - 1
          < (((valueCounts xs).take 4).set
              (((valueCounts xs).take 4).length - 1) (modeVal xs)).length := by
        rw [List.length_set]
        omega
      have hget := List.getElem_set_self hidx
      have hmem2 := List.getElem_mem hidx
      rw [hget] at hmem2
      exact hmem2

/-- Witness for C5: on a concrete nonempty column the mode is among
the generated options. -/
theorem trivia_options_amended_witness :
    modeVal ["a", "a", "b"] ∈ triviaCatOptions ["a", "a", "b"] :=
  (trivia_options_amended [1, 2, 3] ["a", "a", "b"]
    (by decide) (by decide)).2.2.2

/-- Witness for C4 at a concrete role selection and view. -/
theorem kpi_aggregator_independent_witness :
    (computeKPIs ⟨none, some "Region", some "Revenue"⟩ sampleView).total_sales
      = some ((sampleView.map (fun r => toNum (r "Revenue"))).sum) :=
  (kpi_aggregator_independent.2.2 ⟨none, some "Region", some "Revenue"⟩
    sampleView).1

/-- Witness for C1: the two-slot run at concrete columns, first slot
produced, second slot skipped. -/
theorem chart_two_numeric_only_witness :
    chartSlots ⟨["p", "q"], [], none, none⟩ (fun _ _ => Except.ok ())
      = [SlotStatus.produced (ChartTemplate.scatter "p" "q"),
         SlotStatus.noRule] :=
  (chart_two_numeric_only "p" "q" none (fun _ _ => Except.ok ())).2.2.2

/-- Witness for the amended C2 at a concrete schema. -/
theorem chart_notice_per_unqualified_slot_witness :
    noticeCount (chartSlots ⟨["p", "q"], [], none, none⟩
        (fun _ _ => Except.ok ()))
      = ((List.range (numSlots ⟨["p", "q"], [], none, none⟩)).filter
          (fun i => (selectTemplate ⟨["p", "q"], [], none, none⟩ i).isNone)).length :=
  (chart_notice_per_unqualified_slot ⟨["p", "q"], [], none, none⟩
    (fun _ _ => Except.ok ())).1

/-- Witness for C9 at a concrete session state. -/
theorem whatif_preserves_baseline_witness :
    (whatIfHandler ⟨sampleView, computeKPIs ⟨none, none, none⟩ sampleView⟩
        ⟨none, none, none⟩ "Revenue" 25).1.filtered = sampleView :=
  (whatif_preserves_baseline
    ⟨sampleView, computeKPIs ⟨none, none, none⟩ sampleView⟩
    ⟨none, none, none⟩ "Revenue" 25).1
